import Mathlib

/-!
Verification development for the zgrab2 scan-module fork: a shallow embedding of
the banner scanner (`modules/banner/scanner.go`) and the TLS scanner
(`modules/tls.go`), together with theorems about their `Scan` and `Init`
behaviour.

Go strings and byte slices are both modelled as `List Nat` (byte values);
Go `error` values are modelled by the inductive `GoError` (with `none` for a
nil error); machine integers are `Nat`/`Int` with explicit `% 2 ^ 64` where the
code truncates (`big.Int.Uint64`).  External collaborators (the zgrab2
framework's status mapping, the Go regexp engine, `strconv.Unquote`) are either
modelled from the spec (marked as such) or taken as parameters.
-/

/-- Modelled from the spec: the closed `ScanStatus` enumeration of the zgrab2
framework (`status.go` is not part of the given sources): `SUCCESS`,
`SUCCESS_NOT_CONTAIN`, `PROTOCOL_ERROR`, plus the statuses derived generically
from connection failures (timeout, connection-refused, io-error,
unknown-error). -/
inductive ScanStatus where
  | SCAN_SUCCESS
  | SCAN_SUCCESS_NOTCONTAIN
  | SCAN_PROTOCOL_ERROR
  | SCAN_CONNECTION_TIMEOUT
  | SCAN_CONNECTION_REFUSED
  | SCAN_IO_ERROR
  | SCAN_UNKNOWN_ERROR
deriving DecidableEq

/-- Go `error` values that occur in the two modules.  `eof` is `io.EOF`,
`noMatch` is the banner module's `NoMatchError`, `mismatchedFlags` is
`zgrab2.ErrMismatchedFlags`; the remaining constructors classify connection
errors by the kind the framework's status mapping distinguishes. -/
inductive GoError where
  | eof
  | noMatch
  | mismatchedFlags
  | timeout
  | refused
  | ioErr (msg : String)
  | unknown (msg : String)
deriving DecidableEq

/-- Modelled from the spec: `zgrab2.TryGetScanStatus` (framework code, not in
the given sources) translates a non-nil error into the status for its kind
(timeout, connection-refused, io-error, unknown-error); it never yields
`SCAN_SUCCESS` or `SCAN_SUCCESS_NOTCONTAIN`. -/
def TryGetScanStatus : GoError → ScanStatus
  | .timeout => .SCAN_CONNECTION_TIMEOUT
  | .refused => .SCAN_CONNECTION_REFUSED
  | .ioErr _ => .SCAN_IO_ERROR
  | _ => .SCAN_UNKNOWN_ERROR

/-- Value of one byte of the standard base64 alphabet (`encoding/base64`
`StdEncoding`): `A`-`Z`, `a`-`z`, `0`-`9`, `+`, `/`. -/
def b64Val (c : Nat) : Option Nat :=
  if 65 ≤ c ∧ c ≤ 90 then some (c - 65)
  else if 97 ≤ c ∧ c ≤ 122 then some (c - 97 + 26)
  else if 48 ≤ c ∧ c ≤ 57 then some (c - 48 + 52)
  else if c = 43 then some 62
  else if c = 47 then some 63
  else none

/-- Byte of the standard base64 alphabet for a 6-bit value. -/
def b64Char (n : Nat) : Nat :=
  if n < 26 then 65 + n
  else if n < 52 then 97 + (n - 26)
  else if n < 62 then 48 + (n - 52)
  else if n = 62 then 43
  else 47

/-- `encoding/base64` `StdEncoding.EncodeToString`: standard alphabet with
`=` (61) padding. -/
def b64EncodeStd : List Nat → List Nat
  | [] => []
  | [a] => [b64Char (a / 4), b64Char (a % 4 * 16), 61, 61]
  | [a, b] => [b64Char (a / 4), b64Char (a % 4 * 16 + b / 16), b64Char (b % 16 * 4), 61]
  | a :: b :: c :: rest =>
      b64Char (a / 4) :: b64Char (a % 4 * 16 + b / 16) ::
      b64Char (b % 16 * 4 + c / 64) :: b64Char (c % 64) :: b64EncodeStd rest

/-- Decode a stream of base64 quanta (4 input bytes each); `=` (61) padding is
permitted only in the final quantum.  Any other shape is a
`CorruptInputError`, modelled as `none`. -/
def b64DecodeQuanta : List Nat → Option (List Nat)
  | [] => some []
  | c1 :: c2 :: c3 :: c4 :: rest =>
    match b64Val c1, b64Val c2 with
    | some v1, some v2 =>
      if c3 = 61 then
        if c4 = 61 ∧ rest = [] then some [v1 * 4 + v2 / 16]
        else none
      else
        match b64Val c3 with
        | some v3 =>
          if c4 = 61 then
            if rest = [] then some [v1 * 4 + v2 / 16, v2 % 16 * 16 + v3 / 4]
            else none
          else
            match b64Val c4 with
            | some v4 =>
              match b64DecodeQuanta rest with
              | some ds => some ((v1 * 4 + v2 / 16) :: (v2 % 16 * 16 + v3 / 4) :: (v3 % 4 * 64 + v4) :: ds)
              | none => none
            | none => none
        | none => none
    | _, _ => none
  | _ => none

/-- `encoding/base64` `StdEncoding.DecodeString`: newline bytes (10, 13) are
ignored, then the input is decoded quantum by quantum. -/
def b64DecodeStd (s : List Nat) : Option (List Nat) :=
  b64DecodeQuanta (s.filter (fun c => decide (c ≠ 13 ∧ c ≠ 10)))

/-- Lower-case hex byte for a value below 16 (as `encoding/hex` emits). -/
def hexDigit (n : Nat) : Nat :=
  if n < 10 then 48 + n else 87 + n

/-- `encoding/hex.EncodeToString`: two lower-case hex bytes per input byte. -/
def hexEncode : List Nat → List Nat
  | [] => []
  | b :: rest => hexDigit (b / 16) :: hexDigit (b % 16) :: hexEncode rest

/-- Decimal representation of a natural number as a byte string
(`strconv.FormatUint(_, 10)`). -/
def natToDecimal (n : Nat) : List Nat :=
  (Nat.toDigits 10 n).map (fun c => c.toNat)

/-- `zgrab2.BaseFlags` fields the two modules read (`Name`, `Trigger`). -/
structure BaseFlags where
  Name : List Nat
  Trigger : List Nat
deriving DecidableEq

/-- Command-line flags of the banner module (`banner.Flags`).  `MaxTries` is a
Go `int`, hence `Int` here. -/
structure Flags where
  base : BaseFlags
  Probe : List Nat
  Pattern : List Nat
  MaxTries : Int
  UseTLS : Bool
  OnlyBASE64 : Bool
  ProbeBASE64 : List Nat
  SingleContains : List Nat
  SingleContainsString : List Nat

/-- Banner `Scanner` state after `Init`: the configuration, the compiled
pattern (the Go `regexp.Regexp` matcher, embedded as its matching function)
and the decoded probe bytes. -/
structure Scanner where
  config : Flags
  regexMatch : List Nat → Bool
  probe : List Nat

/-- A parsed X.509 certificate's fields read by the TLS scanner: the three
fingerprint digests (fixed-length byte sequences) and the serial number (a
`big.Int`, an unsigned integer of arbitrary size, hence `Nat`). -/
structure ParsedCert where
  FingerprintMD5 : List Nat
  FingerprintSHA1 : List Nat
  FingerprintSHA256 : List Nat
  SerialNumber : Nat
deriving DecidableEq

/-- A certificate as the TLS scanner reads it. -/
structure Certificate where
  Parsed : ParsedCert
deriving DecidableEq

/-- `ServerCertificates`: the leaf certificate and the (possibly nil) ordered
chain.  (The `Chain` field is declared first only because the `Certificate`
field name would otherwise shadow the `Certificate` type.) -/
structure ServerCertificates where
  Chain : Option (List Certificate)
  Certificate : Certificate
deriving DecidableEq

/-- The handshake log fields the two modules read: presence of a `ServerHello`
and the (possibly nil) `ServerCertificates`. -/
structure HandshakeLog where
  ServerHello : Option Unit
  ServerCertificates : Option ServerCertificates
deriving DecidableEq

/-- `zgrab2.TLSLog` as consumed by the two modules. -/
structure TLSLog where
  HandshakeLog : HandshakeLog
deriving DecidableEq

/-- Command-line flags of the TLS module (`modules.TLSFlags`). -/
structure TLSFlags where
  base : BaseFlags
  FilterFingerprintMD5 : List Nat
  FilterFingerprintSHA1 : List Nat
  FilterFingerprintSHA256 : List Nat
  FilterFingerprintSerial : List Nat
deriving DecidableEq

/-- TLS `Scanner` state after `Init`. -/
structure TLSScanner where
  config : TLSFlags
deriving DecidableEq

/-- Banner `Results` record: `banner`, `length`, `banner_base64` and the
optional TLS log. -/
structure Results where
  Banner : List Nat
  Length : Nat
  BannerBase64 : List Nat
  TLSLog : Option TLSLog
deriving DecidableEq

/-- Outcome of one banner `Scan` call: either a normal return of
(status, optional result, optional error), or a runtime panic. -/
inductive ScanOutcome where
  | ret (st : ScanStatus) (res : Option Results) (err : Option GoError)
  | panicked (msg : String)
deriving DecidableEq

/-- Outcome of one TLS `Scan` call. -/
inductive TLSOutcome where
  | ret (st : ScanStatus) (res : Option TLSLog) (err : Option GoError)
  | panicked (msg : String)
deriving DecidableEq

/-- The environment of one banner scan: per-call results of the external
operations `target.Open`, `GetTLSConnection`, `GetLog`, `Handshake`, and the
per-iteration results of the probe/read loop (`Write` and
`zgrab2.ReadAvailable`).  Indexing by call number makes the sequential retries
explicit. -/
structure ProbeAttempt where
  writeErr : Option GoError
  readRet : List Nat
  readErr : Option GoError
deriving DecidableEq

/-- World of one banner `Scan` call: `openErr i` is the error of the `i`-th
`target.Open` call (`none` meaning a connection was obtained), the TLS fields
give the results of `GetTLSConnection`/`GetLog`/`Handshake`, and `att i` gives
the write/read results of the `i`-th probe-loop iteration. -/
structure BannerWorld where
  openErr : Nat → Option GoError
  tlsConnErr : Option GoError
  tlsLog : Option TLSLog
  handshakeErr : Option GoError
  att : Nat → ProbeAttempt

/-- State left by the banner scanner's connection-open loop
(`scanner.go` lines 143-150): how many `Open` calls were made, the `err`
variable after the loop, and whether a connection was obtained (`c != nil`). -/
structure OpenLoopState where
  opens : Nat
  err : Option GoError
  connOk : Bool
deriving DecidableEq

/-- The open loop of `Scanner.Scan`: `for try < MaxTries { try += 1; c, err =
target.Open(..); if err != nil { continue }; break }`.  `fuel` is the number of
remaining iterations (`MaxTries - try`); on zero iterations `err` keeps its
initial nil and no connection exists. -/
def openLoop (openErr : Nat → Option GoError) : Nat → Nat → OpenLoopState
  | _, 0 => ⟨0, none, false⟩
  | i, fuel + 1 =>
    match openErr i with
    | none => ⟨1, none, true⟩
    | some e =>
      if fuel = 0 then ⟨1, some e, false⟩
      else
        let r := openLoop openErr (i + 1) fuel
        ⟨r.opens + 1, r.err, r.connOk⟩

/-- State left by the banner scanner's probe/read loop
(`scanner.go` lines 172-185): iteration and `Write` call counts and the final
values of the loop-carried variables `err`, `ret`, `readerr`. -/
structure ProbeLoopState where
  attempts : Nat
  writes : Nat
  err : Option GoError
  ret : List Nat
  readerr : Option GoError
deriving DecidableEq

/-- The probe/read loop of `Scanner.Scan`: each iteration writes the probe
(only if it is non-empty — `err` is left unchanged otherwise), reads the
available bytes, and continues on a write error or on a read error other than
a clean `io.EOF`; otherwise it breaks.  The loop-carried variables keep their
last values when the retries are exhausted. -/
def probeLoop (probeLen : Nat) (att : Nat → ProbeAttempt) :
    Nat → Nat → Option GoError → List Nat → Option GoError → ProbeLoopState
  | _, 0, err, ret, readerr => ⟨0, 0, err, ret, readerr⟩
  | i, fuel + 1, err, _, _ =>
    let a := att i
    let err2 := if 0 < probeLen then a.writeErr else err
    let wr := if 0 < probeLen then 1 else 0
    if err2 = none ∧ (a.readErr = none ∨ a.readErr = some GoError.eof) then
      ⟨1, wr, err2, a.readRet, a.readErr⟩
    else
      let r := probeLoop probeLen att (i + 1) fuel err2 a.readRet a.readErr
      ⟨r.attempts + 1, r.writes + wr, r.err, r.ret, r.readerr⟩

/-- The probe/read loop as `Scanner.Scan` enters it: `try = 0`, `err = nil`,
`ret` and `readerr` at their zero values, bounded by `MaxTries` iterations. -/
def probeLoopOf (s : Scanner) (w : BannerWorld) : ProbeLoopState :=
  probeLoop s.probe.length w.att 0 s.config.MaxTries.toNat none [] none

/-- The deferred `c.Close()` of `Scanner.Scan`: when no connection was ever
obtained (`c` is a nil `net.Conn` interface), the deferred method call at
function return panics, replacing the normal return value. -/
def bannerWrap (connOk : Bool) (o : ScanOutcome) : ScanOutcome :=
  if connOk then o else .panicked "close of nil net.Conn"

/-- The `Results` value built by `Scanner.Scan` after a successful read: the
base64 encoding is stored unconditionally, the raw bytes only when
`--only-base64` is not set. -/
def mkBannerResult (s : Scanner) (tlslog : Option TLSLog) (ret : List Nat) : Results :=
  ⟨if s.config.OnlyBASE64 = true then [] else ret, ret.length, b64EncodeStd ret, tlslog⟩

/-- The substring filter bytes `Scanner.Scan` tests for: `check_bytes` starts
as the `--single-contain-string` bytes and is replaced by the base64 decoding
of `--single-contain` when that flag is non-empty (`none` = decode error). -/
def decodedFilter (f : Flags) : Option (List Nat) :=
  if f.SingleContains ≠ [] then b64DecodeStd f.SingleContains
  else some f.SingleContainsString

/-- The acceptance logic of `Scanner.Scan` (lines 192-221): build the result,
then either match the compiled pattern (no substring filter configured) or
test substring containment; every remaining path falls through to
`SCAN_PROTOCOL_ERROR` with `NoMatchError`. -/
def bannerFinish (s : Scanner) (tlslog : Option TLSLog) (ret : List Nat) : ScanOutcome :=
  let result := mkBannerResult s tlslog ret
  if s.config.SingleContains = [] ∧ s.config.SingleContainsString = [] then
    if s.regexMatch ret then .ret .SCAN_SUCCESS (some result) none
    else .ret .SCAN_PROTOCOL_ERROR (some result) (some .noMatch)
  else
    match decodedFilter s.config with
    | some check_bytes =>
      if 0 < check_bytes.length then
        if check_bytes <:+: ret then .ret .SCAN_SUCCESS (some result) none
        else .ret .SCAN_SUCCESS_NOTCONTAIN none none
      else .ret .SCAN_PROTOCOL_ERROR (some result) (some .noMatch)
    | none => .ret .SCAN_PROTOCOL_ERROR (some result) (some .noMatch)

/-- The returns of `Scanner.Scan` after the probe/read loop (lines 186-191):
a write error or a non-EOF read error from the last attempt is returned with
the generic status mapping and no result; otherwise the acceptance logic
runs. -/
def bannerProbeOutcome (s : Scanner) (tlslog : Option TLSLog) (st : ProbeLoopState) : ScanOutcome :=
  match st.err with
  | some e => .ret (TryGetScanStatus e) none (some e)
  | none =>
    match st.readerr with
    | none => bannerFinish s tlslog st.ret
    | some GoError.eof => bannerFinish s tlslog st.ret
    | some re => .ret (TryGetScanStatus re) none (some re)

/-- `banner.Scanner.Scan`, with call counts: open the connection with retries
(an error from the last attempt returns immediately with no result and no
deferred close); optionally upgrade to TLS, capturing the TLS log into the
result before the handshake; then run the probe/read loop and the acceptance
logic.  Every return after `defer c.Close()` panics if no connection was
obtained. -/
def bannerScan (s : Scanner) (w : BannerWorld) :
    Nat × Nat × Nat × ScanOutcome :=
  let ol := openLoop w.openErr 0 s.config.MaxTries.toNat
  match ol.err with
  | some e => (ol.opens, 0, 0, .ret (TryGetScanStatus e) none (some e))
  | none =>
    if s.config.UseTLS = true then
      match w.tlsConnErr with
      | some e => (ol.opens, 0, 0, bannerWrap ol.connOk (.ret (TryGetScanStatus e) none (some e)))
      | none =>
        match w.handshakeErr with
        | some e =>
          (ol.opens, 0, 0,
           bannerWrap ol.connOk (.ret (TryGetScanStatus e) (some ⟨[], 0, [], w.tlsLog⟩) (some e)))
        | none =>
          let st := probeLoopOf s w
          (ol.opens, st.attempts, st.writes,
           bannerWrap ol.connOk (bannerProbeOutcome s w.tlsLog st))
    else
      let st := probeLoopOf s w
      (ol.opens, st.attempts, st.writes,
       bannerWrap ol.connOk (bannerProbeOutcome s none st))

/-- World of one TLS `Scan` call: the error of `target.OpenTLS` (`none` =
success), whether the returned connection value is non-nil, and the result of
`conn.GetLog()` (`none` = nil log). -/
structure TLSWorld where
  openErr : Option GoError
  connPresent : Bool
  log : Option TLSLog

/-- One `case` block of the fingerprint `switch` in `TLSScanner.Scan`:
compare the leaf certificate's encoded fingerprint with the configured value,
then walk the (possibly nil) chain in order and return on the first match;
no match anywhere yields `SCAN_SUCCESS_NOTCONTAIN` with no result and no
error.  (`fp` is the branch's fingerprint encoding; the serial branch of the
source writes the equality as `filter == cert`, which is the same test.) -/
def tlsFilterCase (fp : Certificate → List Nat) (filter : List Nat)
    (lg : TLSLog) (sc : ServerCertificates) : TLSOutcome :=
  if fp sc.Certificate = filter then .ret .SCAN_SUCCESS (some lg) none
  else
    match sc.Chain with
    | some chain =>
      if chain.any (fun c => decide (fp c = filter)) then .ret .SCAN_SUCCESS (some lg) none
      else .ret .SCAN_SUCCESS_NOTCONTAIN none none
    | none => .ret .SCAN_SUCCESS_NOTCONTAIN none none

/-- A fingerprint `case` block together with the dereferences it performs:
`LogDataTLS.HandshakeLog.ServerCertificates...` panics when the log or the
certificates are nil. -/
def tlsFilterBranch (fp : Certificate → List Nat) (filter : List Nat) (w : TLSWorld) : TLSOutcome :=
  match w.log with
  | none => .panicked "nil TLS log dereference"
  | some lg =>
    match lg.HandshakeLog.ServerCertificates with
    | none => .panicked "nil ServerCertificates dereference"
    | some sc => tlsFilterCase fp filter lg sc

/-- `modules.TLSScanner.Scan`: open a TLS connection; on failure return the
error-derived status, attaching the handshake log iff it is available and a
`ServerHello` was captured; on success run the fingerprint `switch` (MD5,
SHA1, SHA256, serial-number cases, in source order — only the first case whose
filter is non-empty runs), and with no filter configured return `SCAN_SUCCESS`
with the log.  The serial case compares `strconv.FormatUint(serial.Uint64(),
10)`, i.e. the decimal of the serial reduced `% 2 ^ 64`. -/
def tlsScan (s : TLSFlags) (w : TLSWorld) : TLSOutcome :=
  match w.openErr with
  | some e =>
    match w.connPresent, w.log with
    | true, some lg =>
      match lg.HandshakeLog.ServerHello with
      | some _ => .ret (TryGetScanStatus e) (some lg) (some e)
      | none => .ret (TryGetScanStatus e) none (some e)
    | _, _ => .ret (TryGetScanStatus e) none (some e)
  | none =>
    if s.FilterFingerprintMD5 ≠ [] then
      tlsFilterBranch (fun c => hexEncode c.Parsed.FingerprintMD5) s.FilterFingerprintMD5 w
    else if s.FilterFingerprintSHA1 ≠ [] then
      tlsFilterBranch (fun c => hexEncode c.Parsed.FingerprintSHA1) s.FilterFingerprintSHA1 w
    else if s.FilterFingerprintSHA256 ≠ [] then
      tlsFilterBranch (fun c => hexEncode c.Parsed.FingerprintSHA256) s.FilterFingerprintSHA256 w
    else if s.FilterFingerprintSerial ≠ [] then
      tlsFilterBranch (fun c => natToDecimal (c.Parsed.SerialNumber % 2 ^ 64))
        s.FilterFingerprintSerial w
    else .ret .SCAN_SUCCESS w.log none

/-- A configuration value as handed to `Init`: produced by the banner module's
`NewFlags`, by the TLS module's `NewFlags`, or by some other module. -/
inductive ScanFlagsV where
  | bannerFlags (f : Flags)
  | tlsFlags (f : TLSFlags)
  | otherFlags

/-- Outcome of an `Init` call: the initialized scanner, a returned error, or a
runtime panic. -/
inductive InitOutcome where
  | ok (s : Scanner)
  | err (e : GoError)
  | panicked (msg : String)

/-- The unchecked type assertion `f, _ := flags.(*Flags)` of the banner
scanner's `Init`: a mismatched configuration leaves `f` nil. -/
def bannerInitConfig : ScanFlagsV → Option Flags
  | .bannerFlags f => some f
  | _ => none

/-- `banner.Scanner.Init`: store the (unchecked) configuration, compile the
pattern with `regexp.MustCompile`, then decode the probe — `strconv.Unquote`
of the literal `--probe` if non-empty, else base64 of `--single-payload`.
The Go regexp compiler and the unquoting are external: `compilePattern p =
none` models a pattern on which `MustCompile` panics, `unquote p = none` a
probe on which `Unquote` errors (the code then panics).  With a mismatched
configuration `scanner.config` is nil and the very first field access
(`scanner.config.Pattern`) panics — no error is ever returned. -/
def bannerInit (compilePattern : List Nat → Option (List Nat → Bool))
    (unquote : List Nat → Option (List Nat)) (flags : ScanFlagsV) : InitOutcome :=
  match bannerInitConfig flags with
  | none => .panicked "invalid memory address or nil pointer dereference"
  | some f =>
    match compilePattern f.Pattern with
    | none => .panicked "regexp MustCompile"
    | some rx =>
      if f.Probe ≠ [] then
        match unquote f.Probe with
        | none => .panicked "Probe error"
        | some p => .ok ⟨f, rx, p⟩
      else if f.ProbeBASE64 ≠ [] then
        match b64DecodeStd f.ProbeBASE64 with
        | none => .panicked "Probe(BASE64) error"
        | some p => .ok ⟨f, rx, p⟩
      else .ok ⟨f, rx, []⟩

/-- `modules.TLSScanner.Init`: the checked type assertion returns
`zgrab2.ErrMismatchedFlags` on a configuration not produced by the TLS
module's `NewFlags`. -/
def tlsInit (flags : ScanFlagsV) : Except GoError TLSScanner :=
  match flags with
  | .tlsFlags f => .ok ⟨f⟩
  | _ => .error GoError.mismatchedFlags

/-- When every `Open` call fails, the open loop runs its full fuel and leaves
the error of the last call. -/
lemma openLoop_all_fail (f : Nat → Option GoError) (es : Nat → GoError)
    (hfail : ∀ i, f i = some (es i)) :
    ∀ fuel i, 1 ≤ fuel → openLoop f i fuel = ⟨fuel, some (es (i + fuel - 1)), false⟩ := by
  intro fuel
  induction fuel with
  | zero => intro i h; exact absurd h (by decide)
  | succ n ih =>
    intro i _
    simp only [openLoop, hfail i]
    by_cases hn : n = 0
    · subst hn; simp
    · simp only [if_neg hn]
      rw [ih (i + 1) (Nat.one_le_iff_ne_zero.mpr hn)]
      have harg : i + 1 + n - 1 = i + (n + 1) - 1 := by omega
      simp [harg]

/-- With at least one iteration, the open loop ends with nil `err` only by
breaking with a connection in hand. -/
lemma openLoop_err_none_connOk (f : Nat → Option GoError) :
    ∀ fuel i, 1 ≤ fuel → (openLoop f i fuel).err = none → (openLoop f i fuel).connOk = true := by
  intro fuel
  induction fuel with
  | zero => intro i h; exact absurd h (by decide)
  | succ n ih =>
    intro i _
    simp only [openLoop]
    cases hfi : f i with
    | none => intro _; rfl
    | some e =>
      by_cases hn : n = 0
      · subst hn; simp
      · simp only [if_neg hn]
        exact ih (i + 1) (Nat.one_le_iff_ne_zero.mpr hn)

/-- C3: with `MaxTries = N ≥ 1` and a target whose `Open` always fails,
`banner.Scanner.Scan` calls `Open` exactly `N` times, performs no probe-loop
iteration and no write, and returns the status derived from the last open
error, a nil result, and that error. -/
theorem banner_scan_retry_bound (s : Scanner) (w : BannerWorld) (N : Nat) (es : Nat → GoError)
    (hN : s.config.MaxTries = (N : Int)) (hN1 : 1 ≤ N)
    (hfail : ∀ i, w.openErr i = some (es i)) :
    bannerScan s w =
      (N, 0, 0, .ret (TryGetScanStatus (es (N - 1))) none (some (es (N - 1)))) := by
  have h := openLoop_all_fail w.openErr es hfail N 0 hN1
  simp only [bannerScan, hN, Int.toNat_ofNat, h, Nat.zero_add]

/-- Concrete banner scanner configuration for the retry-bound witness:
`MaxTries = 2`, no TLS, no filters. -/
def exC3S : Scanner :=
  ⟨⟨⟨[], []⟩, [], [], 2, false, false, [], [], []⟩, fun _ => false, []⟩

/-- Concrete world for the retry-bound witness: every `Open` call times out. -/
def exC3W : BannerWorld :=
  ⟨fun _ => some GoError.timeout, none, none, none, fun _ => ⟨none, [], none⟩⟩

/-- Witness for C3 at `N = 2`: exactly two opens, then the timeout status. -/
theorem banner_scan_retry_bound_witness :
    bannerScan exC3S exC3W =
      (2, 0, 0, .ret ScanStatus.SCAN_CONNECTION_TIMEOUT none (some GoError.timeout)) :=
  banner_scan_retry_bound exC3S exC3W 2 (fun _ => GoError.timeout) rfl (by decide) (fun _ => rfl)

/-- The hypotheses "connection phase succeeds" and "probe/read phase succeeds"
of the spec, phrased on the loop states: the open loop ends with nil error and
a connection; the TLS upgrade (when requested) and handshake succeed; the
probe loop ends with nil write error and a clean (nil or EOF) read error. -/
def bannerPhasesOk (s : Scanner) (w : BannerWorld) : Prop :=
  (openLoop w.openErr 0 s.config.MaxTries.toNat).err = none ∧
  (openLoop w.openErr 0 s.config.MaxTries.toNat).connOk = true ∧
  (s.config.UseTLS = true → w.tlsConnErr = none ∧ w.handshakeErr = none) ∧
  (probeLoopOf s w).err = none ∧
  ((probeLoopOf s w).readerr = none ∨ (probeLoopOf s w).readerr = some GoError.eof)

/-- The TLS log stored in the banner result: captured from the connection
before the handshake when `--use-tls` is set, absent otherwise. -/
def bannerTLSLogOf (s : Scanner) (w : BannerWorld) : Option TLSLog :=
  if s.config.UseTLS = true then w.tlsLog else none

/-- Under successful connection and probe phases, `Scan` reaches the
acceptance logic on the bytes left by the probe loop. -/
lemma bannerScan_phasesOk (s : Scanner) (w : BannerWorld) (h : bannerPhasesOk s w) :
    bannerScan s w =
      ((openLoop w.openErr 0 s.config.MaxTries.toNat).opens,
       (probeLoopOf s w).attempts, (probeLoopOf s w).writes,
       bannerFinish s (bannerTLSLogOf s w) (probeLoopOf s w).ret) := by
  obtain ⟨h1, h2, h3, h4, h5⟩ := h
  rcases hol : openLoop w.openErr 0 s.config.MaxTries.toNat with ⟨o, oe, ok⟩
  rw [hol] at h1 h2
  have h1e : oe = none := h1
  have h2e : ok = true := h2
  subst h1e; subst h2e
  rcases hps : probeLoopOf s w with ⟨pa, pw, pe, pr, prr⟩
  rw [hps] at h4 h5
  have h4e : pe = none := h4
  subst h4e
  by_cases hU : s.config.UseTLS = true
  · obtain ⟨hc, hh⟩ := h3 hU
    rcases h5 with h5 | h5 <;>
      (have h5e : prr = _ := h5; subst h5e) <;>
      simp [bannerScan, hol, hps, hU, hc, hh, bannerWrap, bannerProbeOutcome, bannerTLSLogOf]
  · rcases h5 with h5 | h5 <;>
      (have h5e : prr = _ := h5; subst h5e) <;>
      simp [bannerScan, hol, hps, hU, bannerWrap, bannerProbeOutcome, bannerTLSLogOf]

/-- C1: in a banner scan whose connection and probe/read phases succeed with
response bytes `R` and whose configured substring filter decodes to non-empty
bytes `cb` (the literal `--single-contain-string`, or the base64
`--single-contain` which takes precedence when non-empty), `Scan` returns
`SCAN_SUCCESS` with the result iff `R` contains `cb`, otherwise
`SCAN_SUCCESS_NOTCONTAIN` with no result and no error; it never returns
`SCAN_PROTOCOL_ERROR`. -/
theorem banner_scan_substring_filter (s : Scanner) (w : BannerWorld) (cb : List Nat)
    (hok : bannerPhasesOk s w)
    (hcb : decodedFilter s.config = some cb) (hne : cb ≠ []) :
    (cb <:+: (probeLoopOf s w).ret →
        (bannerScan s w).2.2.2 = .ret .SCAN_SUCCESS
          (some (mkBannerResult s (bannerTLSLogOf s w) (probeLoopOf s w).ret)) none) ∧
    (¬ cb <:+: (probeLoopOf s w).ret →
        (bannerScan s w).2.2.2 = .ret .SCAN_SUCCESS_NOTCONTAIN none none) ∧
    (∀ r e, (bannerScan s w).2.2.2 ≠ .ret .SCAN_PROTOCOL_ERROR r e) := by
  have hb := bannerScan_phasesOk s w hok
  have houter : ¬(s.config.SingleContains = [] ∧ s.config.SingleContainsString = []) := by
    rintro ⟨hc1, hc2⟩
    rw [decodedFilter, if_neg (by simp [hc1]), hc2] at hcb
    cases hcb
    exact hne rfl
  have hlen : 0 < cb.length := List.length_pos.mpr hne
  refine ⟨fun hinf => ?_, fun hninf => ?_, fun r e => ?_⟩
  · simp [hb, bannerFinish, if_neg houter, hcb, if_pos hlen, if_pos hinf]
  · simp [hb, bannerFinish, if_neg houter, hcb, if_pos hlen, if_neg hninf]
  · by_cases hinf : cb <:+: (probeLoopOf s w).ret <;>
      simp [hb, bannerFinish, if_neg houter, hcb, if_pos hlen, hinf]

/-- Concrete banner scanner for the substring-filter witness:
`--single-contain-string = "ab"`, `MaxTries = 1`, no TLS. -/
def exC1S : Scanner :=
  ⟨⟨⟨[], []⟩, [], [], 1, false, false, [], [], [97, 98]⟩, fun _ => false, []⟩

/-- Concrete world for the substring-filter witness: the connection opens at
once and the read yields `"abc"` followed by a clean EOF. -/
def exC1W : BannerWorld :=
  ⟨fun _ => none, none, none, none, fun _ => ⟨none, [97, 98, 99], some GoError.eof⟩⟩

/-- Witness for C1: `"abc"` contains `"ab"`, so the scan returns
`SCAN_SUCCESS` with the result. -/
theorem banner_scan_substring_filter_witness :
    (bannerScan exC1S exC1W).2.2.2 = .ret ScanStatus.SCAN_SUCCESS
      (some (mkBannerResult exC1S (bannerTLSLogOf exC1S exC1W) (probeLoopOf exC1S exC1W).ret))
      none :=
  (banner_scan_substring_filter exC1S exC1W [97, 98]
    (by unfold bannerPhasesOk; decide) rfl (by decide)).1 (by decide)

/-- C7: in a banner scan with no substring filter configured whose connection
and probe/read phases succeed with response bytes `R`, `Scan` returns
`SCAN_SUCCESS` with the result exactly when the compiled pattern matches `R`,
and otherwise `SCAN_PROTOCOL_ERROR` with the `NoMatchError` ("pattern did not
match"); a compiled empty pattern (which, per the spec's reading of Go regexp
semantics, matches everything) therefore always yields `SCAN_SUCCESS`. -/
theorem banner_scan_pattern_acceptance (s : Scanner) (w : BannerWorld)
    (hok : bannerPhasesOk s w)
    (hc1 : s.config.SingleContains = []) (hc2 : s.config.SingleContainsString = []) :
    ((bannerScan s w).2.2.2 = .ret .SCAN_SUCCESS
        (some (mkBannerResult s (bannerTLSLogOf s w) (probeLoopOf s w).ret)) none ↔
      s.regexMatch (probeLoopOf s w).ret = true) ∧
    (s.regexMatch (probeLoopOf s w).ret = false →
      (bannerScan s w).2.2.2 = .ret .SCAN_PROTOCOL_ERROR
        (some (mkBannerResult s (bannerTLSLogOf s w) (probeLoopOf s w).ret))
        (some GoError.noMatch)) ∧
    (∀ compile : List Nat → List Nat → Bool, (∀ bs, compile [] bs = true) →
      s.regexMatch = compile s.config.Pattern → s.config.Pattern = [] →
      (bannerScan s w).2.2.2 = .ret .SCAN_SUCCESS
        (some (mkBannerResult s (bannerTLSLogOf s w) (probeLoopOf s w).ret)) none) := by
  have hb := bannerScan_phasesOk s w hok
  by_cases hm : s.regexMatch (probeLoopOf s w).ret = true
  · refine ⟨?_, ?_, ?_⟩
    · simp [hb, bannerFinish, hc1, hc2, hm]
    · intro hf; rw [hm] at hf; cases hf
    · intro compile hcomp hrm hpat
      simp [hb, bannerFinish, hc1, hc2, hm]
  · have hm2 : s.regexMatch (probeLoopOf s w).ret = false := by
      cases hmm : s.regexMatch (probeLoopOf s w).ret
      · rfl
      · exact absurd hmm hm
    refine ⟨?_, ?_, ?_⟩
    · simp [hb, bannerFinish, hc1, hc2, hm2]
    · intro _; simp [hb, bannerFinish, hc1, hc2, hm2]
    · intro compile hcomp hrm hpat
      exact absurd (by rw [hrm, hpat]; exact hcomp _) hm

/-- Concrete banner scanner for the pattern-acceptance witness: no filters;
the compiled pattern matches exactly the bytes `"hi"`. -/
def exC7S : Scanner :=
  ⟨⟨⟨[], []⟩, [], [], 1, false, false, [], [], []⟩, fun r => decide (r = [104, 105]), []⟩

/-- Concrete world for the pattern-acceptance witness: the read yields `"hi"`
with a nil read error. -/
def exC7W : BannerWorld :=
  ⟨fun _ => none, none, none, none, fun _ => ⟨none, [104, 105], none⟩⟩

/-- Witness for C7: the pattern matches the response, so the scan returns
`SCAN_SUCCESS` with the result. -/
theorem banner_scan_pattern_acceptance_witness :
    (bannerScan exC7S exC7W).2.2.2 = .ret ScanStatus.SCAN_SUCCESS
      (some (mkBannerResult exC7S (bannerTLSLogOf exC7S exC7W) (probeLoopOf exC7S exC7W).ret))
      none :=
  (banner_scan_pattern_acceptance exC7S exC7W
    (by unfold bannerPhasesOk; decide) rfl rfl).1.mpr (by decide)

/-- Consistency of one returned (status, error) pair: a non-absent error pairs
with a non-`SUCCESS` status, and the `SUCCESS_NOT_CONTAIN` soft negative
carries no error. -/
def retConsistent (st : ScanStatus) (err : Option GoError) : Prop :=
  (err ≠ none → st ≠ .SCAN_SUCCESS) ∧ (st = .SCAN_SUCCESS_NOTCONTAIN → err = none)

/-- Consistency of a banner scan outcome. -/
def outcomeConsistent : ScanOutcome → Prop
  | .ret st _ err => retConsistent st err
  | .panicked _ => True

/-- Consistency of a TLS scan outcome. -/
def tlsOutcomeConsistent : TLSOutcome → Prop
  | .ret st _ err => retConsistent st err
  | .panicked _ => True

/-- The generic error-to-status mapping never produces a success status, so
pairing it with its error is always consistent. -/
lemma tryGet_retConsistent (e : GoError) : retConsistent (TryGetScanStatus e) (some e) := by
  cases e <;> simp [TryGetScanStatus, retConsistent]

/-- Every outcome of the banner acceptance logic is consistent. -/
lemma bannerFinish_consistent (s : Scanner) (t : Option TLSLog) (r : List Nat) :
    outcomeConsistent (bannerFinish s t r) := by
  unfold bannerFinish
  split
  · split <;> simp [outcomeConsistent, retConsistent]
  · split
    · split
      · split <;> simp [outcomeConsistent, retConsistent]
      · simp [outcomeConsistent, retConsistent]
    · simp [outcomeConsistent, retConsistent]

/-- Every outcome of the post-probe-loop returns is consistent. -/
lemma bannerProbeOutcome_consistent (s : Scanner) (t : Option TLSLog) (st : ProbeLoopState) :
    outcomeConsistent (bannerProbeOutcome s t st) := by
  unfold bannerProbeOutcome
  split
  · exact tryGet_retConsistent _
  · split
    · exact bannerFinish_consistent _ _ _
    · exact bannerFinish_consistent _ _ _
    · exact tryGet_retConsistent _

/-- The deferred close preserves outcome consistency (a panic is vacuously
consistent). -/
lemma bannerWrap_consistent (b : Bool) (o : ScanOutcome) (h : outcomeConsistent o) :
    outcomeConsistent (bannerWrap b o) := by
  cases b
  · simp [bannerWrap, outcomeConsistent]
  · simpa [bannerWrap] using h

/-- Every outcome of the banner `Scan` is consistent. -/
lemma bannerScan_consistent (s : Scanner) (w : BannerWorld) :
    outcomeConsistent (bannerScan s w).2.2.2 := by
  rcases hol : openLoop w.openErr 0 s.config.MaxTries.toNat with ⟨o, oe, ok⟩
  cases oe
  · cases hU : s.config.UseTLS
    · simp only [bannerScan, hol, hU]
      exact bannerWrap_consistent _ _ (bannerProbeOutcome_consistent _ _ _)
    · cases hc : w.tlsConnErr
      · cases hh : w.handshakeErr
        · simp only [bannerScan, hol, hU, hc, hh]
          exact bannerWrap_consistent _ _ (bannerProbeOutcome_consistent _ _ _)
        · simp only [bannerScan, hol, hU, hc, hh]
          exact bannerWrap_consistent _ _ (tryGet_retConsistent _)
      · simp only [bannerScan, hol, hU, hc]
        exact bannerWrap_consistent _ _ (tryGet_retConsistent _)
  · simp only [bannerScan, hol]
    exact tryGet_retConsistent _

/-- Every outcome of a fingerprint `case` block is consistent. -/
lemma tlsFilterCase_consistent (fp : Certificate → List Nat) (filter : List Nat)
    (lg : TLSLog) (sc : ServerCertificates) :
    tlsOutcomeConsistent (tlsFilterCase fp filter lg sc) := by
  unfold tlsFilterCase
  split
  · simp [tlsOutcomeConsistent, retConsistent]
  · split
    · split <;> simp [tlsOutcomeConsistent, retConsistent]
    · simp [tlsOutcomeConsistent, retConsistent]

/-- Every outcome of a fingerprint branch (including its dereferences) is
consistent. -/
lemma tlsFilterBranch_consistent (fp : Certificate → List Nat) (filter : List Nat)
    (w : TLSWorld) : tlsOutcomeConsistent (tlsFilterBranch fp filter w) := by
  unfold tlsFilterBranch
  split
  · trivial
  · split
    · trivial
    · exact tlsFilterCase_consistent _ _ _ _

/-- Every outcome of the TLS `Scan` is consistent. -/
lemma tlsScan_consistent (f : TLSFlags) (tw : TLSWorld) :
    tlsOutcomeConsistent (tlsScan f tw) := by
  unfold tlsScan
  split
  · split
    · split
      · exact tryGet_retConsistent _
      · exact tryGet_retConsistent _
    · exact tryGet_retConsistent _
  · split
    · exact tlsFilterBranch_consistent _ _ _
    · split
      · exact tlsFilterBranch_consistent _ _ _
      · split
        · exact tlsFilterBranch_consistent _ _ _
        · split
          · exact tlsFilterBranch_consistent _ _ _
          · simp [tlsOutcomeConsistent, retConsistent]

/-- C6: every `Scan` return (banner and TLS, on every path through every
world) is a single (status, optional result, optional error) triple in which a
non-absent error pairs with a non-`SUCCESS` status and the
`SCAN_SUCCESS_NOTCONTAIN` soft negative carries no error; moreover a failure
to decode a configured base64 substring filter is not swallowed into a
success: that path surfaces `SCAN_PROTOCOL_ERROR` together with a non-absent
error. -/
theorem scan_error_consistency (s : Scanner) (w : BannerWorld) (f : TLSFlags) (tw : TLSWorld) :
    outcomeConsistent (bannerScan s w).2.2.2 ∧ tlsOutcomeConsistent (tlsScan f tw) ∧
    (bannerPhasesOk s w → s.config.SingleContains ≠ [] →
      b64DecodeStd s.config.SingleContains = none →
      (bannerScan s w).2.2.2 = .ret .SCAN_PROTOCOL_ERROR
        (some (mkBannerResult s (bannerTLSLogOf s w) (probeLoopOf s w).ret))
        (some GoError.noMatch)) := by
  refine ⟨bannerScan_consistent s w, tlsScan_consistent f tw, ?_⟩
  intro hok hsc hdec
  have hb := bannerScan_phasesOk s w hok
  have hfilt : decodedFilter s.config = none := by
    rw [decodedFilter, if_pos hsc, hdec]
  simp [hb, bannerFinish, hfilt, hsc]

/-- Concrete banner scanner for the consistency witness: `--single-contain`
is the single byte `"!"`, which is not valid base64. -/
def exC6S : Scanner :=
  ⟨⟨⟨[], []⟩, [], [], 1, false, false, [], [33], []⟩, fun _ => false, []⟩

/-- Concrete world for the consistency witness. -/
def exC6W : BannerWorld :=
  ⟨fun _ => none, none, none, none, fun _ => ⟨none, [104], some GoError.eof⟩⟩

/-- Witness for C6: the invalid base64 filter path returns
`SCAN_PROTOCOL_ERROR` with a non-absent error. -/
theorem scan_error_consistency_witness :
    (bannerScan exC6S exC6W).2.2.2 = .ret ScanStatus.SCAN_PROTOCOL_ERROR
      (some (mkBannerResult exC6S (bannerTLSLogOf exC6S exC6W) (probeLoopOf exC6S exC6W).ret))
      (some GoError.noMatch) :=
  (scan_error_consistency exC6S exC6W ⟨⟨[], []⟩, [], [], [], []⟩ ⟨none, false, none⟩).2.2
    (by unfold bannerPhasesOk; decide) (by decide) (by decide)

/-- The banner acceptance logic always returns normally. -/
lemma bannerFinish_ne_panicked (s : Scanner) (t : Option TLSLog) (r : List Nat) (msg : String) :
    bannerFinish s t r ≠ .panicked msg := by
  unfold bannerFinish
  split
  · split <;> simp
  · split
    · split
      · split <;> simp
      · simp
    · simp

/-- The post-probe-loop returns always return normally. -/
lemma bannerProbeOutcome_ne_panicked (s : Scanner) (t : Option TLSLog) (st : ProbeLoopState)
    (msg : String) : bannerProbeOutcome s t st ≠ .panicked msg := by
  unfold bannerProbeOutcome
  split
  · simp
  · split
    · exact bannerFinish_ne_panicked _ _ _ _
    · exact bannerFinish_ne_panicked _ _ _ _
    · simp

/-- Concrete banner scanner for the `MaxTries = 0` counterexample: a
non-empty probe, no TLS, `MaxTries = 0`. -/
def exC10S : Scanner :=
  ⟨⟨⟨[], []⟩, [92, 110], [], 0, false, false, [], [], []⟩, fun _ => true, [10]⟩

/-- Concrete world for the `MaxTries = 0` counterexample: every external
operation would succeed if it were ever invoked. -/
def exC10W : BannerWorld :=
  ⟨fun _ => none, none, none, none, fun _ => ⟨none, [104], some GoError.eof⟩⟩

/-- Counterexample to C10 as stated: with `MaxTries = 0` and a non-empty
probe, `Scan` performs zero `Open` calls, zero probe-loop iterations and zero
`Write` calls — it never writes to or reads from the nil connection, because
the probe/read loop is bounded by the same `MaxTries`; it panics in the
deferred `Close` instead. -/
theorem banner_maxtries_zero_cex :
    bannerScan exC10S exC10W = (0, 0, 0, ScanOutcome.panicked "close of nil net.Conn") := by
  decide

/-- C10 (amended): for `MaxTries ≤ 0` the open loop never executes, the open
error stays nil, `Scan` skips the probe/read loop entirely (it is bounded by
the same `MaxTries`, so no write and no read ever happens) and panics when the
deferred `Close` runs on the nil connection — it never returns an error
status; for `MaxTries ≥ 1` no such panic is possible. -/
theorem banner_maxtries_safety (s : Scanner) (w : BannerWorld) :
    (s.config.MaxTries ≤ 0 →
       bannerScan s w = (0, 0, 0, ScanOutcome.panicked "close of nil net.Conn")) ∧
    (1 ≤ s.config.MaxTries →
       ∀ msg, (bannerScan s w).2.2.2 ≠ ScanOutcome.panicked msg) := by
  constructor
  · intro h
    have htn : s.config.MaxTries.toNat = 0 := Int.toNat_eq_zero.mpr h
    have hol : openLoop w.openErr 0 s.config.MaxTries.toNat = ⟨0, none, false⟩ := by
      rw [htn]; rfl
    have hps : probeLoopOf s w = ⟨0, 0, none, [], none⟩ := by
      unfold probeLoopOf; rw [htn]; rfl
    cases hU : s.config.UseTLS
    · simp [bannerScan, hol, hps, hU, bannerWrap]
    · cases hc : w.tlsConnErr
      · cases hh : w.handshakeErr
        · simp [bannerScan, hol, hps, hU, hc, hh, bannerWrap]
        · simp [bannerScan, hol, hps, hU, hc, hh, bannerWrap]
      · simp [bannerScan, hol, hps, hU, hc, bannerWrap]
  · intro h msg
    have h1 : 1 ≤ s.config.MaxTries.toNat := by omega
    rcases hol : openLoop w.openErr 0 s.config.MaxTries.toNat with ⟨o, oe, ok⟩
    cases oe
    · have hok : ok = true := by
        have h2 := openLoop_err_none_connOk w.openErr s.config.MaxTries.toNat 0 h1
        rw [hol] at h2
        exact h2 rfl
      subst hok
      cases hU : s.config.UseTLS
      · simp only [bannerScan, hol, hU]
        simpa [bannerWrap] using bannerProbeOutcome_ne_panicked s none (probeLoopOf s w) msg
      · cases hc : w.tlsConnErr
        · cases hh : w.handshakeErr
          · simp only [bannerScan, hol, hU, hc, hh]
            simpa [bannerWrap] using
              bannerProbeOutcome_ne_panicked s w.tlsLog (probeLoopOf s w) msg
          · simp [bannerScan, hol, hU, hc, hh, bannerWrap]
        · simp [bannerScan, hol, hU, hc, bannerWrap]
    · simp [bannerScan, hol]

/-- Concrete banner scanner for the safety witness: same configuration with
the documented default `MaxTries = 1`. -/
def exC10S1 : Scanner :=
  ⟨⟨⟨[], []⟩, [92, 110], [], 1, false, false, [], [], []⟩, fun _ => true, [10]⟩

/-- Witness for the amended C10: at `MaxTries = 0` the panic equation holds,
and at the default `MaxTries = 1` the scan cannot panic. -/
theorem banner_maxtries_safety_witness :
    bannerScan exC10S exC10W = (0, 0, 0, ScanOutcome.panicked "close of nil net.Conn") ∧
    (bannerScan exC10S1 exC10W).2.2.2 ≠ ScanOutcome.panicked "close of nil net.Conn" :=
  ⟨(banner_maxtries_safety exC10S exC10W).1 (by decide),
   (banner_maxtries_safety exC10S1 exC10W).2 (by decide) "close of nil net.Conn"⟩

/-- The test the fingerprint switch applies to a single certificate, for the
first configured (non-empty) filter in the switch's priority order
MD5, SHA1, SHA256, serial number; `false` when no filter is configured. -/
def certMatchesActive (f : TLSFlags) (c : Certificate) : Bool :=
  if f.FilterFingerprintMD5 ≠ [] then
    decide (hexEncode c.Parsed.FingerprintMD5 = f.FilterFingerprintMD5)
  else if f.FilterFingerprintSHA1 ≠ [] then
    decide (hexEncode c.Parsed.FingerprintSHA1 = f.FilterFingerprintSHA1)
  else if f.FilterFingerprintSHA256 ≠ [] then
    decide (hexEncode c.Parsed.FingerprintSHA256 = f.FilterFingerprintSHA256)
  else if f.FilterFingerprintSerial ≠ [] then
    decide (natToDecimal (c.Parsed.SerialNumber % 2 ^ 64) = f.FilterFingerprintSerial)
  else false

/-- At least one fingerprint filter is configured. -/
def hasFilter (f : TLSFlags) : Prop :=
  f.FilterFingerprintMD5 ≠ [] ∨ f.FilterFingerprintSHA1 ≠ [] ∨
  f.FilterFingerprintSHA256 ≠ [] ∨ f.FilterFingerprintSerial ≠ []

/-- Pointwise-equal predicates give equal `any` over a list. -/
lemma listAny_congr {α : Type} (l : List α) (p q : α → Bool) (h : ∀ a, p a = q a) :
    l.any p = l.any q := by
  induction l with
  | nil => rfl
  | cons x xs ih => simp [List.any_cons, h, ih]

/-- A fingerprint `case` block expressed through the per-certificate test. -/
lemma tlsFilterCase_eq_active (f : TLSFlags) (fp : Certificate → List Nat) (filter : List Nat)
    (lg : TLSLog) (sc : ServerCertificates)
    (hcm : ∀ c, certMatchesActive f c = decide (fp c = filter)) :
    tlsFilterCase fp filter lg sc =
      if certMatchesActive f sc.Certificate = true then .ret .SCAN_SUCCESS (some lg) none
      else
        match sc.Chain with
        | some chain =>
          if chain.any (certMatchesActive f) = true then .ret .SCAN_SUCCESS (some lg) none
          else .ret .SCAN_SUCCESS_NOTCONTAIN none none
        | none => .ret .SCAN_SUCCESS_NOTCONTAIN none none := by
  unfold tlsFilterCase
  by_cases hp : fp sc.Certificate = filter
  · simp [hp, hcm]
  · have hfalse : certMatchesActive f sc.Certificate = false := by simp [hcm, hp]
    simp only [if_neg hp, hfalse, Bool.false_eq_true, if_false]
    cases sc.Chain with
    | none => rfl
    | some chain =>
      have hany := listAny_congr chain (certMatchesActive f) (fun c => decide (fp c = filter)) hcm
      simp only [hany]

/-- Master description of a successful TLS scan with a configured filter:
the outcome is `SCAN_SUCCESS` with the log when the leaf or (in order) some
chain certificate passes the active fingerprint test, else
`SCAN_SUCCESS_NOTCONTAIN` with no result and no error. -/
lemma tlsScan_filter_eq (f : TLSFlags) (w : TLSWorld) (lg : TLSLog) (sc : ServerCertificates)
    (ho : w.openErr = none) (hl : w.log = some lg)
    (hsc : lg.HandshakeLog.ServerCertificates = some sc)
    (hf : hasFilter f) :
    tlsScan f w =
      if certMatchesActive f sc.Certificate = true then .ret .SCAN_SUCCESS (some lg) none
      else
        match sc.Chain with
        | some chain =>
          if chain.any (certMatchesActive f) = true then .ret .SCAN_SUCCESS (some lg) none
          else .ret .SCAN_SUCCESS_NOTCONTAIN none none
        | none => .ret .SCAN_SUCCESS_NOTCONTAIN none none := by
  simp only [tlsScan, ho]
  by_cases h1 : f.FilterFingerprintMD5 = []
  · rw [if_neg (by simp [h1])]
    by_cases h2 : f.FilterFingerprintSHA1 = []
    · rw [if_neg (by simp [h2])]
      by_cases h3 : f.FilterFingerprintSHA256 = []
      · rw [if_neg (by simp [h3])]
        by_cases h4 : f.FilterFingerprintSerial = []
        · exact absurd hf (by simp [hasFilter, h1, h2, h3, h4])
        · rw [if_pos h4]
          simp only [tlsFilterBranch, hl, hsc]
          exact tlsFilterCase_eq_active f _ _ lg sc
            (fun c => by simp [certMatchesActive, h1, h2, h3, h4])
      · rw [if_pos h3]
        simp only [tlsFilterBranch, hl, hsc]
        exact tlsFilterCase_eq_active f _ _ lg sc
          (fun c => by simp [certMatchesActive, h1, h2, h3])
    · rw [if_pos h2]
      simp only [tlsFilterBranch, hl, hsc]
      exact tlsFilterCase_eq_active f _ _ lg sc
        (fun c => by simp [certMatchesActive, h1, h2])
  · rw [if_pos h1]
    simp only [tlsFilterBranch, hl, hsc]
    exact tlsFilterCase_eq_active f _ _ lg sc
      (fun c => by simp [certMatchesActive, h1])

/-- C2: when opening the TLS connection fails with error `e`, `Scan` returns
the error-derived status together with the captured log iff the connection is
non-nil, its log is non-nil and the log contains a `ServerHello`; in every
other case it returns the error-derived status with an absent result — the
error itself is returned either way. -/
theorem tls_scan_failure_partial_log (f : TLSFlags) (w : TLSWorld) (e : GoError)
    (he : w.openErr = some e) :
    (∀ lg, w.connPresent = true → w.log = some lg → lg.HandshakeLog.ServerHello ≠ none →
        tlsScan f w = .ret (TryGetScanStatus e) (some lg) (some e)) ∧
    ((∀ lg, w.connPresent = true → w.log = some lg → lg.HandshakeLog.ServerHello = none) →
        tlsScan f w = .ret (TryGetScanStatus e) none (some e)) := by
  constructor
  · intro lg hcp hl hsh
    rcases hsh2 : lg.HandshakeLog.ServerHello with _ | u
    · exact absurd hsh2 hsh
    · simp [tlsScan, he, hcp, hl, hsh2]
  · intro hnone
    cases hcp : w.connPresent
    · cases hl : w.log <;> simp [tlsScan, he, hcp, hl]
    · cases hl : w.log with
      | none => simp [tlsScan, he, hcp, hl]
      | some lg => simp [tlsScan, he, hcp, hl, hnone lg hcp hl]

/-- Concrete partial log for the TLS failure witness: a `ServerHello` was
captured, no certificates. -/
def exC2Lg : TLSLog := ⟨⟨some (), none⟩⟩

/-- Concrete world for the TLS failure witness: the open fails with a timeout
after the `ServerHello`. -/
def exC2W : TLSWorld := ⟨some GoError.timeout, true, some exC2Lg⟩

/-- Witness for C2: the failed handshake still returns the partial log. -/
theorem tls_scan_failure_partial_log_witness :
    tlsScan ⟨⟨[], []⟩, [], [], [], []⟩ exC2W =
      .ret ScanStatus.SCAN_CONNECTION_TIMEOUT (some exC2Lg) (some GoError.timeout) :=
  (tls_scan_failure_partial_log ⟨⟨[], []⟩, [], [], [], []⟩ exC2W GoError.timeout rfl).1
    exC2Lg rfl rfl (by decide)

/-- C9: in a successful TLS scan with a fingerprint filter configured whose
leaf certificate does not pass the active test, a present chain is scanned in
order: some chain certificate passing yields `SCAN_SUCCESS` with the full
log, and no chain certificate passing (or no chain) yields
`SCAN_SUCCESS_NOTCONTAIN` with no result and no error. -/
theorem tls_chain_fallback (f : TLSFlags) (w : TLSWorld) (lg : TLSLog)
    (sc : ServerCertificates)
    (ho : w.openErr = none) (hl : w.log = some lg)
    (hsc : lg.HandshakeLog.ServerCertificates = some sc)
    (hf : hasFilter f)
    (hleaf : certMatchesActive f sc.Certificate = false) :
    (∀ chain, sc.Chain = some chain → chain.any (certMatchesActive f) = true →
        tlsScan f w = .ret .SCAN_SUCCESS (some lg) none) ∧
    ((∀ chain, sc.Chain = some chain → chain.any (certMatchesActive f) = false) →
        tlsScan f w = .ret .SCAN_SUCCESS_NOTCONTAIN none none) := by
  have key := tlsScan_filter_eq f w lg sc ho hl hsc hf
  rw [hleaf] at key
  simp only [Bool.false_eq_true, if_false] at key
  constructor
  · intro chain hch hany
    rw [key, hch]
    simp [hany]
  · intro hnone
    cases hch : sc.Chain with
    | none => rw [key, hch]
    | some chain =>
      rw [key, hch]
      simp [hnone chain hch]

/-- TLS flags for the chain-fallback witness: MD5 filter `"ab"`. -/
def exC9F : TLSFlags := ⟨⟨[], []⟩, [97, 98], [], [], []⟩

/-- Certificates for the chain-fallback witness: the leaf's MD5 encodes to
`"00"`, the single chain certificate's MD5 encodes to `"ab"`. -/
def exC9Sc : ServerCertificates := ⟨some [⟨⟨[171], [], [], 0⟩⟩], ⟨⟨[0], [], [], 0⟩⟩⟩

/-- Captured log for the chain-fallback witness. -/
def exC9Lg : TLSLog := ⟨⟨some (), some exC9Sc⟩⟩

/-- World for the chain-fallback witness: the TLS open succeeds. -/
def exC9W : TLSWorld := ⟨none, true, some exC9Lg⟩

/-- Witness for C9: the leaf does not match but a chain certificate does, so
the scan returns `SCAN_SUCCESS` with the full log. -/
theorem tls_chain_fallback_witness :
    tlsScan exC9F exC9W = .ret ScanStatus.SCAN_SUCCESS (some exC9Lg) none :=
  (tls_chain_fallback exC9F exC9W exC9Lg exC9Sc rfl rfl rfl
      (Or.inl (by decide)) (by decide)).1
    [⟨⟨[171], [], [], 0⟩⟩] rfl (by decide)

/-- The configuration with every fingerprint filter after the first
configured one cleared: what C8 claims the scan actually evaluates. -/
def firstFilterOnly (f : TLSFlags) : TLSFlags :=
  if f.FilterFingerprintMD5 ≠ [] then
    { f with FilterFingerprintSHA1 := [], FilterFingerprintSHA256 := [],
             FilterFingerprintSerial := [] }
  else if f.FilterFingerprintSHA1 ≠ [] then
    { f with FilterFingerprintSHA256 := [], FilterFingerprintSerial := [] }
  else if f.FilterFingerprintSHA256 ≠ [] then
    { f with FilterFingerprintSerial := [] }
  else f

/-- C8: the fingerprint switch evaluates only the first configured filter in
the fixed priority MD5, SHA1, SHA256, serial number — clearing every filter
after the first configured one never changes the outcome of any scan — and in
particular, when an MD5 filter is configured and neither the leaf nor any
chain certificate matches it, the scan returns `SCAN_SUCCESS_NOTCONTAIN`
regardless of any configured SHA1 filter. -/
theorem tls_fingerprint_priority (f : TLSFlags) (w : TLSWorld) :
    tlsScan f w = tlsScan (firstFilterOnly f) w ∧
    (∀ lg sc, w.openErr = none → w.log = some lg →
      lg.HandshakeLog.ServerCertificates = some sc →
      f.FilterFingerprintMD5 ≠ [] →
      hexEncode sc.Certificate.Parsed.FingerprintMD5 ≠ f.FilterFingerprintMD5 →
      (∀ chain, sc.Chain = some chain → ∀ c ∈ chain,
        hexEncode c.Parsed.FingerprintMD5 ≠ f.FilterFingerprintMD5) →
      tlsScan f w = .ret .SCAN_SUCCESS_NOTCONTAIN none none) := by
  constructor
  · cases ho : w.openErr with
    | some e => simp only [tlsScan, ho]
    | none =>
      by_cases h1 : f.FilterFingerprintMD5 = []
      · by_cases h2 : f.FilterFingerprintSHA1 = []
        · by_cases h3 : f.FilterFingerprintSHA256 = []
          · by_cases h4 : f.FilterFingerprintSerial = []
            · simp [tlsScan, ho, firstFilterOnly, h1, h2, h3, h4]
            · simp [tlsScan, ho, firstFilterOnly, h1, h2, h3, h4]
          · simp [tlsScan, ho, firstFilterOnly, h1, h2, h3]
        · simp [tlsScan, ho, firstFilterOnly, h1, h2]
      · simp [tlsScan, ho, firstFilterOnly, h1]
  · intro lg sc ho hl hsc hmd5 hlf hchain
    have key := tlsScan_filter_eq f w lg sc ho hl hsc (Or.inl hmd5)
    have hleaf : certMatchesActive f sc.Certificate = false := by
      simp [certMatchesActive, hmd5, hlf]
    rw [hleaf] at key
    simp only [Bool.false_eq_true, if_false] at key
    cases hch : sc.Chain with
    | none => rw [key, hch]
    | some chain =>
      rw [key, hch]
      have hany : chain.any (certMatchesActive f) = false := by
        cases hv : chain.any (certMatchesActive f)
        · rfl
        · exfalso
          rcases List.any_eq_true.mp hv with ⟨c, hc, hm⟩
          exact hchain chain hch c hc (by simpa [certMatchesActive, hmd5] using hm)
      simp [hany]

/-- TLS flags for the priority witness: MD5 filter `"01"` (no certificate
matches it) and SHA1 filter `"05"` (the leaf matches it). -/
def exC8F : TLSFlags := ⟨⟨[], []⟩, [48, 49], [48, 53], [], []⟩

/-- Certificates for the priority witness: leaf MD5 byte `0xab`, leaf SHA1
byte `0x05` — the SHA1 filter would match, the MD5 filter does not. -/
def exC8Sc : ServerCertificates := ⟨none, ⟨⟨[171], [5], [], 0⟩⟩⟩

/-- Captured log for the priority witness. -/
def exC8Lg : TLSLog := ⟨⟨some (), some exC8Sc⟩⟩

/-- World for the priority witness: the TLS open succeeds. -/
def exC8W : TLSWorld := ⟨none, true, some exC8Lg⟩

/-- Witness for C8: with both filters configured, the certificate matching
SHA1 but not MD5 yields `SCAN_SUCCESS_NOTCONTAIN`. -/
theorem tls_fingerprint_priority_witness :
    tlsScan exC8F exC8W = .ret ScanStatus.SCAN_SUCCESS_NOTCONTAIN none none :=
  (tls_fingerprint_priority exC8F exC8W).2 exC8Lg exC8Sc rfl rfl rfl (by decide) (by decide)
    (fun chain h => by simp [exC8Sc] at h)

/-- TLS flags for the serial-number counterexample:
`--filter-serialnumber = "0"`. -/
def exC4F : TLSFlags := ⟨⟨[], []⟩, [], [], [], [48]⟩

/-- Certificates for the serial-number counterexample: the leaf's serial
number is `2 ^ 64`, whose decimal representation is a 21-byte string, not
`"0"`. -/
def exC4Sc : ServerCertificates := ⟨none, ⟨⟨[], [], [], 2 ^ 64⟩⟩⟩

/-- Captured log for the serial-number counterexample. -/
def exC4Lg : TLSLog := ⟨⟨some (), some exC4Sc⟩⟩

/-- World for the serial-number counterexample: the TLS open succeeds. -/
def exC4W : TLSWorld := ⟨none, true, some exC4Lg⟩

/-- Counterexample to C4 as stated: the scan compares
`strconv.FormatUint(serial.Uint64(), 10)`, which truncates the serial to its
low 64 bits — the certificate with serial `2 ^ 64` matches the filter `"0"`
and yields `SCAN_SUCCESS`, although the decimal representation of its serial
number is not `"0"`. -/
theorem tls_serial_truncation_cex :
    tlsScan exC4F exC4W = .ret ScanStatus.SCAN_SUCCESS (some exC4Lg) none ∧
    natToDecimal exC4Sc.Certificate.Parsed.SerialNumber ≠ exC4F.FilterFingerprintSerial := by
  constructor
  · decide
  · decide

/-- C4 (amended): in a successful TLS scan with only the serial-number filter
configured, a certificate (leaf, or — leaf failing — any chain certificate,
in order) matches exactly when the decimal representation of the low 64 bits
of its serial number (`serial % 2 ^ 64`, the `big.Int.Uint64` truncation)
equals the configured value; a match yields `SCAN_SUCCESS` with the full log,
no match anywhere yields `SCAN_SUCCESS_NOTCONTAIN`. -/
theorem tls_serial_filter_low64 (f : TLSFlags) (w : TLSWorld) (lg : TLSLog)
    (sc : ServerCertificates)
    (ho : w.openErr = none) (hl : w.log = some lg)
    (hsc : lg.HandshakeLog.ServerCertificates = some sc)
    (hmd5 : f.FilterFingerprintMD5 = []) (hsha1 : f.FilterFingerprintSHA1 = [])
    (hsha256 : f.FilterFingerprintSHA256 = []) (hser : f.FilterFingerprintSerial ≠ []) :
    ((natToDecimal (sc.Certificate.Parsed.SerialNumber % 2 ^ 64) = f.FilterFingerprintSerial ∨
      (∃ chain, sc.Chain = some chain ∧ ∃ c ∈ chain,
        natToDecimal (c.Parsed.SerialNumber % 2 ^ 64) = f.FilterFingerprintSerial)) →
      tlsScan f w = .ret .SCAN_SUCCESS (some lg) none) ∧
    ((natToDecimal (sc.Certificate.Parsed.SerialNumber % 2 ^ 64) ≠ f.FilterFingerprintSerial ∧
      (∀ chain, sc.Chain = some chain → ∀ c ∈ chain,
        natToDecimal (c.Parsed.SerialNumber % 2 ^ 64) ≠ f.FilterFingerprintSerial)) →
      tlsScan f w = .ret .SCAN_SUCCESS_NOTCONTAIN none none) := by
  have key := tlsScan_filter_eq f w lg sc ho hl hsc (Or.inr (Or.inr (Or.inr hser)))
  have hcm : ∀ c, certMatchesActive f c =
      decide (natToDecimal (c.Parsed.SerialNumber % 2 ^ 64) = f.FilterFingerprintSerial) :=
    fun c => by simp [certMatchesActive, hmd5, hsha1, hsha256, hser]
  constructor
  · rintro (hleaf | ⟨chain, hch, c, hc, hm⟩)
    · have h1 : certMatchesActive f sc.Certificate = true := by
        rw [hcm]; exact decide_eq_true hleaf
      rw [key, h1]
      simp
    · rw [key]
      by_cases hl2 : certMatchesActive f sc.Certificate = true
      · simp [hl2]
      · have hl3 : certMatchesActive f sc.Certificate = false := by
          cases hv : certMatchesActive f sc.Certificate
          · rfl
          · exact absurd hv hl2
        rw [hl3]
        simp only [Bool.false_eq_true, if_false]
        rw [hch]
        have hany : chain.any (certMatchesActive f) = true :=
          List.any_eq_true.mpr ⟨c, hc, by rw [hcm]; simpa using hm⟩
        simp [hany]
  · rintro ⟨hleaf, hchain⟩
    rw [key]
    have h0 : certMatchesActive f sc.Certificate = false := by
      rw [hcm]; simpa using hleaf
    rw [h0]
    simp only [Bool.false_eq_true, if_false]
    cases hch : sc.Chain with
    | none => rfl
    | some chain =>
      have hany : chain.any (certMatchesActive f) = false := by
        cases hv : chain.any (certMatchesActive f)
        · rfl
        · exfalso
          rcases List.any_eq_true.mp hv with ⟨c, hc, hm⟩
          exact hchain chain hch c hc (by rw [hcm] at hm; simpa using hm)
      simp [hany]

/-- TLS flags for the serial-filter witness: `--filter-serialnumber = "5"`. -/
def exC4mF : TLSFlags := ⟨⟨[], []⟩, [], [], [], [53]⟩

/-- Certificates for the serial-filter witness: leaf serial `5`. -/
def exC4mSc : ServerCertificates := ⟨none, ⟨⟨[], [], [], 5⟩⟩⟩

/-- Captured log for the serial-filter witness. -/
def exC4mLg : TLSLog := ⟨⟨some (), some exC4mSc⟩⟩

/-- World for the serial-filter witness: the TLS open succeeds. -/
def exC4mW : TLSWorld := ⟨none, true, some exC4mLg⟩

/-- Witness for the amended C4: the decimal of the (low 64 bits of the) leaf
serial equals the filter, so the scan returns `SCAN_SUCCESS`. -/
theorem tls_serial_filter_low64_witness :
    tlsScan exC4mF exC4mW = .ret ScanStatus.SCAN_SUCCESS (some exC4mLg) none :=
  (tls_serial_filter_low64 exC4mF exC4mW exC4mLg exC4mSc rfl rfl rfl rfl rfl rfl
      (by decide)).1 (Or.inl (by decide))

/-- TLS flags value used as the mismatched configuration handed to the banner
scanner's `Init`. -/
def exC5TF : TLSFlags := ⟨⟨[], []⟩, [], [], [], []⟩

/-- Counterexample to C5 as stated: the banner scanner's `Init`, handed a
configuration produced by the TLS module's `NewFlags`, does not return a
mismatched-configuration error — its unchecked type assertion leaves the
configuration nil and the next field access panics. -/
theorem banner_init_mismatch_cex :
    bannerInit (fun _ => some (fun _ => true)) (fun p => some p)
        (ScanFlagsV.tlsFlags exC5TF) =
      .panicked "invalid memory address or nil pointer dereference" ∧
    bannerInit (fun _ => some (fun _ => true)) (fun p => some p)
        (ScanFlagsV.tlsFlags exC5TF) ≠ .err GoError.mismatchedFlags :=
  ⟨rfl, fun h => nomatch h⟩

/-- C5 (amended): the TLS scanner's `Init` returns the mismatched-
configuration error (`zgrab2.ErrMismatchedFlags`) on every configuration not
produced by its own `NewFlags`; the banner scanner's `Init` instead panics on
the nil-configuration dereference on every configuration not produced by its
own `NewFlags` — it never returns an error for a mismatched configuration. -/
theorem init_mismatched_config (flags : ScanFlagsV)
    (compilePattern : List Nat → Option (List Nat → Bool))
    (unquote : List Nat → Option (List Nat)) :
    ((∀ f, flags ≠ ScanFlagsV.tlsFlags f) →
        tlsInit flags = .error GoError.mismatchedFlags) ∧
    ((∀ f, flags ≠ ScanFlagsV.bannerFlags f) →
        bannerInit compilePattern unquote flags =
          .panicked "invalid memory address or nil pointer dereference") := by
  constructor
  · intro h
    cases flags with
    | bannerFlags f => rfl
    | tlsFlags f => exact absurd rfl (h f)
    | otherFlags => rfl
  · intro h
    cases flags with
    | bannerFlags f => exact absurd rfl (h f)
    | tlsFlags f => rfl
    | otherFlags => rfl

/-- Witness for the amended C5 at a configuration from some third module:
TLS `Init` errors, banner `Init` panics. -/
theorem init_mismatched_config_witness :
    tlsInit ScanFlagsV.otherFlags = .error GoError.mismatchedFlags ∧
    bannerInit (fun _ => some (fun _ => true)) (fun p => some p) ScanFlagsV.otherFlags =
      .panicked "invalid memory address or nil pointer dereference" :=
  ⟨(init_mismatched_config ScanFlagsV.otherFlags (fun _ => some (fun _ => true))
      (fun p => some p)).1 (fun _ h => nomatch h),
   (init_mismatched_config ScanFlagsV.otherFlags (fun _ => some (fun _ => true))
      (fun p => some p)).2 (fun _ h => nomatch h)⟩
